import Mathlib

/-!
GIMP: text-tool commands and the Replace layer mode.

A shallow embedding of

* `app/actions/text-tool-commands.c`: the menu callbacks of the text tool,
* `app/gegl/gimpoperationreplacemode.h`: the type declarations of the
  Replace-mode operation,

together with the compositing contract (`combine`, tile processing) that the
design document describes for the layer-mode operations.

Conventions for the callbacks.  A callback receives the text tool that `data`
points to as a value and returns an `Outcome`: the tool afterwards and the
list of function calls it made, in program order.  Type-cast macros
(`GIMP_TEXT_TOOL`, `GTK_WINDOW`, ...) and the gettext marker are not calls.
Functions that are defined elsewhere in GIMP or in GTK and whose effect the
callbacks do not determine are fields of `Env`.
-/

namespace Gimp

set_option linter.unusedVariables false

/-! ## Data model of `text-tool-commands.c` -/

/-- A GTK widget, identified by its address; `NULL` is `none` in an `Option`. -/
abbrev GtkWidget := Nat

/-- The `action` argument of a command callback. -/
structure GtkAction where
  name : String
  deriving DecidableEq, Repr

/-- A position in a text buffer, as a character offset. -/
structure GtkTextIter where
  offset : Nat
  deriving DecidableEq, Repr

/-- A text buffer: its characters and the two marks that delimit the
selection. -/
structure GtkTextBuffer where
  text : List Char
  insert : Nat
  selection_bound : Nat
  deriving DecidableEq, Repr

/-- The display a tool is active on; `shell` is its top-level window. -/
structure GimpDisplay where
  shell : Option GtkWidget
  deriving DecidableEq, Repr

/-- The fields of `GimpTextTool` (and of its parent `GimpTool`, and the
`GObject` keyed data) that the callbacks read or write. -/
structure GimpTextTool where
  display : Option GimpDisplay
  text_buffer : GtkTextBuffer
  qdata : List (String × GtkWidget)
  deriving DecidableEq, Repr

/-- The callback names passed to `g_signal_connect`. -/
inductive Handler where
  | text_tool_load_dialog_destroyed
  | text_tool_load_dialog_response
  | gtk_true
  deriving DecidableEq, Repr

/-- The value `GTK_RESPONSE_CANCEL` of `GtkResponseType`. -/
def GTK_RESPONSE_CANCEL : Int := -6

/-- The value `GTK_RESPONSE_OK` of `GtkResponseType`. -/
def GTK_RESPONSE_OK : Int := -5

/-- One function call made by a callback, with its arguments. -/
inductive Call where
  | gimp_text_tool_clipboard_cut (text_tool : GimpTextTool)
  | gimp_text_tool_clipboard_copy (text_tool : GimpTextTool) (use_clipboard : Bool)
  | gimp_text_tool_clipboard_paste (text_tool : GimpTextTool) (use_clipboard : Bool)
  | gimp_text_tool_delete_text (text_tool : GimpTextTool) (backspace : Bool)
  | gimp_text_tool_create_vectors (text_tool : GimpTextTool)
  | gimp_text_tool_create_vectors_warped (text_tool : GimpTextTool)
  | gtk_text_buffer_get_has_selection (buffer : GtkTextBuffer)
  | gtk_text_buffer_get_bounds (buffer : GtkTextBuffer)
  | gtk_text_buffer_select_range (buffer : GtkTextBuffer) (ins bound : GtkTextIter)
  | g_object_get_data (key : String)
  | g_object_set_data (key : String) (value : Option GtkWidget)
  | gtk_window_present (window : GtkWidget)
  | gtk_file_chooser_dialog_new (parent : Option GtkWidget) (result : GtkWidget)
  | gtk_dialog_set_alternative_button_order (dialog : GtkWidget) (first second : Int)
  | g_signal_connect (object : GtkWidget) (signal : String) (handler : Handler)
  | gtk_window_set_role (window : GtkWidget) (role : String)
  | gtk_window_set_position (window : GtkWidget)
  | gtk_dialog_set_default_response (dialog : GtkWidget) (response_id : Int)
  | gtk_widget_show (widget : GtkWidget)
  | gtk_widget_hide (widget : GtkWidget)
  | gtk_file_chooser_get_filename (chooser : GtkWidget)
  | gimp_text_buffer_load (buffer : GtkTextBuffer) (filename : String)
  | gimp_filename_to_utf8 (filename : String)
  | gimp_message (handler : GtkWidget) (filename : String) (message : String)
  | g_clear_error
  | g_free (filename : String)
  deriving DecidableEq, Repr

/-- The functions the callbacks call whose bodies live outside
`text-tool-commands.c`.  Each tool function maps the tool before the call to
the tool after it; `gimp_text_buffer_load` returns the buffer after the call
and the error message when it failed (`none` means it returned `TRUE`). -/
structure Env where
  gimp_text_tool_clipboard_cut : GimpTextTool → GimpTextTool
  gimp_text_tool_clipboard_copy : GimpTextTool → Bool → GimpTextTool
  gimp_text_tool_clipboard_paste : GimpTextTool → Bool → GimpTextTool
  gimp_text_tool_delete_text : GimpTextTool → Bool → GimpTextTool
  gimp_text_tool_create_vectors : GimpTextTool → GimpTextTool
  gimp_text_tool_create_vectors_warped : GimpTextTool → GimpTextTool
  gtk_file_chooser_get_filename : GtkWidget → String
  gimp_text_buffer_load : GtkTextBuffer → String → GtkTextBuffer × Option String

/-- What a callback did: the tool afterwards and the calls it made. -/
structure Outcome where
  tool : GimpTextTool
  calls : List Call
  deriving DecidableEq, Repr

/-! ### GLib and GTK primitives the callbacks rely on -/

/-- The function `g_object_get_data`: the datum stored under `key`, `none` for `NULL`. -/
def g_object_get_data (object : GimpTextTool) (key : String) : Option GtkWidget :=
  (object.qdata.find? (fun kv => kv.1 = key)).map Prod.snd

/-- The function `g_object_set_data`: replaces the datum under `key`; storing `NULL`
removes it. -/
def g_object_set_data (object : GimpTextTool) (key : String)
    (value : Option GtkWidget) : GimpTextTool :=
  let rest := object.qdata.filter (fun kv => ¬ kv.1 = key)
  match value with
  | none => { object with qdata := rest }
  | some w => { object with qdata := (key, w) :: rest }

/-- The function `gtk_text_buffer_get_has_selection`: the two selection marks differ. -/
def gtk_text_buffer_get_has_selection (buffer : GtkTextBuffer) : Bool :=
  buffer.insert != buffer.selection_bound

/-- The function `gtk_text_buffer_get_bounds`: the first and the one-past-last position. -/
def gtk_text_buffer_get_bounds (buffer : GtkTextBuffer) : GtkTextIter × GtkTextIter :=
  (⟨0⟩, ⟨buffer.text.length⟩)

/-- The function `gtk_text_buffer_select_range`: moves both selection marks. -/
def gtk_text_buffer_select_range (buffer : GtkTextBuffer) (ins bound : GtkTextIter) :
    GtkTextBuffer :=
  { buffer with insert := ins.offset, selection_bound := bound.offset }

/-! ### The callbacks -/

/-- The callback `text_tool_cut_cmd_callback`, lines 55-62. -/
def text_tool_cut_cmd_callback (env : Env) (action : GtkAction) (data : GimpTextTool) :
    Outcome :=
  let text_tool := data
  { tool := env.gimp_text_tool_clipboard_cut text_tool
    calls := [Call.gimp_text_tool_clipboard_cut text_tool] }

/-- The callback `text_tool_copy_cmd_callback`, lines 64-71. -/
def text_tool_copy_cmd_callback (env : Env) (action : GtkAction) (data : GimpTextTool) :
    Outcome :=
  let text_tool := data
  { tool := env.gimp_text_tool_clipboard_copy text_tool true
    calls := [Call.gimp_text_tool_clipboard_copy text_tool true] }

/-- The callback `text_tool_paste_cmd_callback`, lines 73-80. -/
def text_tool_paste_cmd_callback (env : Env) (action : GtkAction) (data : GimpTextTool) :
    Outcome :=
  let text_tool := data
  { tool := env.gimp_text_tool_clipboard_paste text_tool true
    calls := [Call.gimp_text_tool_clipboard_paste text_tool true] }

/-- The callback `text_tool_delete_cmd_callback`, lines 82-90. -/
def text_tool_delete_cmd_callback (env : Env) (action : GtkAction) (data : GimpTextTool) :
    Outcome :=
  let text_tool := data
  if gtk_text_buffer_get_has_selection text_tool.text_buffer then
    { tool := env.gimp_text_tool_delete_text text_tool true
      calls := [Call.gtk_text_buffer_get_has_selection text_tool.text_buffer,
                Call.gimp_text_tool_delete_text text_tool true] }
  else
    { tool := text_tool
      calls := [Call.gtk_text_buffer_get_has_selection text_tool.text_buffer] }

/-- The key under which the load command keeps its dialog. -/
def file_dialog_key : String := "gimp-text-file-dialog"

/-- The callback `text_tool_load_cmd_callback`, lines 92-147.  `new_dialog` is the widget
that `gtk_file_chooser_dialog_new` returns if it is called. -/
def text_tool_load_cmd_callback (new_dialog : GtkWidget) (action : GtkAction)
    (data : GimpTextTool) : Outcome :=
  let text_tool := data
  match g_object_get_data text_tool file_dialog_key with
  | some dialog =>
    { tool := text_tool
      calls := [Call.g_object_get_data file_dialog_key, Call.gtk_window_present dialog] }
  | none =>
    let parent : Option GtkWidget :=
      match text_tool.display with
      | some display => display.shell
      | none => none
    let dialog := new_dialog
    let chooser := dialog
    { tool := g_object_set_data text_tool file_dialog_key (some dialog)
      calls :=
        [Call.g_object_get_data file_dialog_key,
         Call.gtk_file_chooser_dialog_new parent dialog,
         Call.gtk_dialog_set_alternative_button_order dialog GTK_RESPONSE_OK
           GTK_RESPONSE_CANCEL,
         Call.g_object_set_data file_dialog_key (some dialog),
         Call.g_signal_connect dialog "destroy" Handler.text_tool_load_dialog_destroyed,
         Call.gtk_window_set_role chooser "gimp-text-load-file",
         Call.gtk_window_set_position chooser,
         Call.gtk_dialog_set_default_response chooser GTK_RESPONSE_OK,
         Call.g_signal_connect chooser "response" Handler.text_tool_load_dialog_response,
         Call.g_signal_connect chooser "delete-event" Handler.gtk_true,
         Call.gtk_widget_show chooser] }

/-- The callback `text_tool_clear_cmd_callback`, lines 149-159. -/
def text_tool_clear_cmd_callback (env : Env) (action : GtkAction) (data : GimpTextTool) :
    Outcome :=
  let text_tool := data
  let bounds := gtk_text_buffer_get_bounds text_tool.text_buffer
  let start := bounds.1
  let end_ := bounds.2
  let selected : GimpTextTool :=
    { text_tool with
      text_buffer := gtk_text_buffer_select_range text_tool.text_buffer start end_ }
  { tool := env.gimp_text_tool_delete_text selected true
    calls := [Call.gtk_text_buffer_get_bounds text_tool.text_buffer,
              Call.gtk_text_buffer_select_range text_tool.text_buffer start end_,
              Call.gimp_text_tool_delete_text selected true] }

/-- The callback `text_tool_text_to_path_cmd_callback`, lines 161-168. -/
def text_tool_text_to_path_cmd_callback (env : Env) (action : GtkAction)
    (data : GimpTextTool) : Outcome :=
  let text_tool := data
  { tool := env.gimp_text_tool_create_vectors text_tool
    calls := [Call.gimp_text_tool_create_vectors text_tool] }

/-- The callback `text_tool_text_along_path_cmd_callback`, lines 170-177. -/
def text_tool_text_along_path_cmd_callback (env : Env) (action : GtkAction)
    (data : GimpTextTool) : Outcome :=
  let text_tool := data
  { tool := env.gimp_text_tool_create_vectors_warped text_tool
    calls := [Call.gimp_text_tool_create_vectors_warped text_tool] }

/-- The callback `text_tool_load_dialog_destroyed`, lines 197-202. -/
def text_tool_load_dialog_destroyed (dialog : GtkWidget) (tool : GimpTextTool) : Outcome :=
  { tool := g_object_set_data tool file_dialog_key none
    calls := [Call.g_object_set_data file_dialog_key none] }

/-- The callback `text_tool_load_dialog_response`, lines 204-232. -/
def text_tool_load_dialog_response (env : Env) (dialog : GtkWidget) (response_id : Int)
    (tool : GimpTextTool) : Outcome :=
  if response_id = GTK_RESPONSE_OK then
    let filename := env.gtk_file_chooser_get_filename dialog
    let loaded := env.gimp_text_buffer_load tool.text_buffer filename
    let after : GimpTextTool := { tool with text_buffer := loaded.1 }
    match loaded.2 with
    | some message =>
      { tool := after
        calls := [Call.gtk_file_chooser_get_filename dialog,
                  Call.gimp_text_buffer_load tool.text_buffer filename,
                  Call.gimp_filename_to_utf8 filename,
                  Call.gimp_message dialog filename message,
                  Call.g_clear_error,
                  Call.g_free filename] }
    | none =>
      { tool := after
        calls := [Call.gtk_file_chooser_get_filename dialog,
                  Call.gimp_text_buffer_load tool.text_buffer filename,
                  Call.g_free filename,
                  Call.gtk_widget_hide dialog] }
  else
    { tool := tool
      calls := [Call.gtk_widget_hide dialog] }

/-- The dialogs a sequence of calls created with `gtk_file_chooser_dialog_new`. -/
def created_dialogs (calls : List Call) : List GtkWidget :=
  calls.filterMap fun c =>
    match c with
    | Call.gtk_file_chooser_dialog_new _ result => some result
    | _ => none

/-- Whether a call is a call of `gimp_text_tool_delete_text`. -/
def is_delete_text (c : Call) : Bool :=
  match c with
  | Call.gimp_text_tool_delete_text _ _ => true
  | _ => false

/-- Whether a call is a call of `gimp_text_buffer_load`. -/
def is_buffer_load (c : Call) : Bool :=
  match c with
  | Call.gimp_text_buffer_load _ _ => true
  | _ => false

/-- Whether a call is a call of `gimp_message`. -/
def is_message (c : Call) : Bool :=
  match c with
  | Call.gimp_message _ _ _ => true
  | _ => false

/-! ### The life of the load dialog

The text tool together with the file-chooser dialogs that the load command
created and GTK has not destroyed yet.  GTK runs the "destroy" handler that
the load command connected when such a dialog is destroyed. -/

/-- A text tool and the load dialogs that currently exist. -/
structure LoadState where
  tool : GimpTextTool
  dialogs : List GtkWidget
  deriving DecidableEq, Repr

/-- The user invokes the load command; `new_dialog` is the address GTK gives a
dialog created now. -/
def LoadState.load (s : LoadState) (new_dialog : GtkWidget) (action : GtkAction) :
    LoadState :=
  let o := text_tool_load_cmd_callback new_dialog action s.tool
  { tool := o.tool, dialogs := created_dialogs o.calls ++ s.dialogs }

/-- GTK destroys `dialog` and emits its "destroy" signal. -/
def LoadState.destroy (s : LoadState) (dialog : GtkWidget) : LoadState :=
  { tool := (text_tool_load_dialog_destroyed dialog s.tool).tool
    dialogs := s.dialogs.erase dialog }

/-- The states reachable from a tool without load dialog by the load command
and dialog destruction.  A new dialog is distinct from the existing ones, and
only an existing dialog is destroyed. -/
inductive LoadState.Reachable : LoadState → Prop where
  | init (tool : GimpTextTool) (h : g_object_get_data tool file_dialog_key = none) :
      LoadState.Reachable { tool := tool, dialogs := [] }
  | load (s : LoadState) (new_dialog : GtkWidget) (action : GtkAction)
      (hs : LoadState.Reachable s) (hnew : new_dialog ∉ s.dialogs) :
      LoadState.Reachable (s.load new_dialog action)
  | destroy (s : LoadState) (dialog : GtkWidget)
      (hs : LoadState.Reachable s) (hd : dialog ∈ s.dialogs) :
      LoadState.Reachable (s.destroy dialog)

/-! ## `gimpoperationreplacemode.h` -/

/-- The structure `_GimpOperationReplaceMode`, lines 39-42.  The parent instance type
is declared in `gimpoperationpointlayermode.h` and is a parameter here. -/
structure GimpOperationReplaceMode (GimpOperationPointLayerMode : Type) where
  parent_instance : GimpOperationPointLayerMode

/-- The structure `_GimpOperationReplaceModeClass`, lines 44-47.  The parent class
type is declared in `gimpoperationpointlayermode.h` and is a parameter here. -/
structure GimpOperationReplaceModeClass (GimpOperationPointLayerModeClass : Type) where
  parent_class : GimpOperationPointLayerModeClass

/-! ## The compositing contract

The per-pixel functions of the layer modes and the tile processor are not
part of the two files above; the definitions below follow the design
document.  Components are rational numbers, so the arithmetic is exact. -/

/-- Modelled from the spec: a colour is a vector of `n` components ("N color
channels"); the pixel types of the operations are missing. -/
abbrev Color (n : Nat) := Fin n → ℚ

/-- Modelled from the spec: the clamping of a value to the range [0,1] from
the compositing math library, which is missing. -/
def clamp01 (x : ℚ) : ℚ := max 0 (min 1 x)

/-- Modelled from the spec: `mix`, linear interpolation from `a` (at `t = 0`)
to `b` (at `t = 1`); the math library is missing. -/
def mix (a b t : ℚ) : ℚ := a * (1 - t) + b * t

/-- Modelled from the spec: the blend-mode selector of the Blend Parameters,
with the five modes section 4.3 defines; the mode enumeration is missing. -/
inductive BlendMode where
  | Normal
  | Multiply
  | Screen
  | Difference
  | Replace
  deriving DecidableEq, Repr

/-- Modelled from the spec: the intermediate "blended color" of section 4.3
for one component, clamped after the formula (section 4.1); the concrete
modes are missing.  Replace does not use it. -/
def blended_color (mode : BlendMode) (backdrop_color layer_color : ℚ) : ℚ :=
  clamp01 <|
    match mode with
    | BlendMode.Normal => layer_color
    | BlendMode.Multiply => backdrop_color * layer_color
    | BlendMode.Screen => 1 - (1 - backdrop_color) * (1 - layer_color)
    | BlendMode.Difference => |backdrop_color - layer_color|
    | BlendMode.Replace => layer_color

/-- Modelled from the spec: `out_alpha` of the alpha-over law of section 4.1;
the math library is missing. -/
def over_alpha (bg_alpha fg_alpha : ℚ) : ℚ :=
  fg_alpha + bg_alpha * (1 - fg_alpha)

/-- Modelled from the spec: `out_color` of the alpha-over law of section 4.1
for one component, with the guarded division ("if out_alpha > 0, else 0");
the math library is missing. -/
def over_color (bg_color bg_alpha fg_color fg_alpha : ℚ) : ℚ :=
  if 0 < over_alpha bg_alpha fg_alpha then
    (fg_color * fg_alpha + bg_color * bg_alpha * (1 - fg_alpha)) / over_alpha bg_alpha fg_alpha
  else 0

/-- Modelled from the spec: the "layer_alpha-presence-indicator" in the
coverage of Replace mode, 1 where the layer has alpha and 0 where it has
none; the Replace operation body is missing. -/
def presence (layer_alpha : ℚ) : ℚ := if 0 < layer_alpha then 1 else 0

/-- Modelled from the spec: the coverage of Replace mode (section 4.3); the
Replace operation body is missing. -/
def replace_coverage (layer_alpha opacity mask_value : ℚ) : ℚ :=
  opacity * mask_value * presence layer_alpha

/-- Modelled from the spec: `combine` of section 4.2 with the formulas of
sections 4.1 and 4.3; the process functions of the layer-mode operations
(`gimpoperationreplacemode.c` and its siblings) are missing.  Every mode
defines the edge case of a layer alpha of 0 explicitly: the output is the
backdrop unchanged.  Otherwise opacity and mask value scale the layer alpha
into the foreground alpha; every mode but Replace applies the alpha-over law
to its blended colour; Replace interpolates colour and alpha by its coverage;
the output is clamped. -/
def combine {n : Nat} (mode : BlendMode) (backdrop_color : Color n) (backdrop_alpha : ℚ)
    (layer_color : Color n) (layer_alpha : ℚ) (opacity mask_value : ℚ) : Color n × ℚ :=
  if layer_alpha = 0 then (backdrop_color, backdrop_alpha)
  else
    match mode with
    | BlendMode.Replace =>
      let coverage := replace_coverage layer_alpha opacity mask_value
      (fun i => clamp01 (mix (backdrop_color i) (layer_color i) coverage),
       clamp01 (mix backdrop_alpha layer_alpha coverage))
    | _ =>
      let fg_alpha := layer_alpha * opacity * mask_value
      (fun i => clamp01 (over_color (backdrop_color i) backdrop_alpha
          (blended_color mode (backdrop_color i) (layer_color i)) fg_alpha),
       clamp01 (over_alpha backdrop_alpha fg_alpha))

/-! ### Regions and the tile processor -/

/-- Modelled from the spec: a rectangle of pixel positions, the extent of a
region or a tile; the region types are missing. -/
structure Rect where
  x : Int
  y : Int
  width : Nat
  height : Nat
  deriving DecidableEq, Repr

/-- Modelled from the spec: a pixel position. -/
abbrev Pos := Int × Int

/-- Modelled from the spec: the position lies in the rectangle. -/
def Rect.contains (r : Rect) (p : Pos) : Prop :=
  r.x ≤ p.1 ∧ p.1 < r.x + r.width ∧ r.y ≤ p.2 ∧ p.2 < r.y + r.height

instance (r : Rect) (p : Pos) : Decidable (r.contains p) := by
  unfold Rect.contains
  infer_instance

/-- Modelled from the spec: the positions of a rectangle in iteration order,
row by row. -/
def Rect.positions (r : Rect) : List Pos :=
  (List.range r.height).flatMap fun (j : Nat) =>
    (List.range r.width).map fun (i : Nat) => ((r.x + (i : Int), r.y + (j : Int)) : Pos)

/-- Modelled from the spec: one pixel, colour components and alpha. -/
structure Pixel (n : Nat) where
  color : Color n
  alpha : ℚ

/-- Modelled from the spec: a Pixel Region (section 3) for a colour-bearing
input, its extent and its samples; the buffer types are missing. -/
structure PixelRegion (n : Nat) where
  extent : Rect
  sample : Pos → Pixel n

/-- Modelled from the spec: a mask region, its extent and its values. -/
structure MaskRegion where
  extent : Rect
  sample : Pos → ℚ

/-- Modelled from the spec: the Blend Parameters of section 3. -/
structure BlendParameters where
  opacity : ℚ
  blend_mode : BlendMode
  mask_applies : Bool
  deriving DecidableEq, Repr

/-- Modelled from the spec: the sample of an input at a position; outside the
extent of the input it is fully transparent (section 4.4). -/
def fetch {n : Nat} (region : PixelRegion n) (p : Pos) : Pixel n :=
  if region.extent.contains p then region.sample p else { color := fun _ => 0, alpha := 0 }

/-- Modelled from the spec: the mask value at a position, fully opaque when
no mask is bound or the mask does not apply, fully transparent outside the
extent of the mask, clamped otherwise (sections 4.4 and 7). -/
def fetch_mask (mask_applies : Bool) (mask : Option MaskRegion) (p : Pos) : ℚ :=
  match mask_applies, mask with
  | true, some m => if m.extent.contains p then clamp01 (m.sample p) else 0
  | _, _ => 1

/-- Modelled from the spec: the output pixel at one position, `combine` of
the selected mode on the fetched samples with the clamped opacity. -/
def composite_pixel {n : Nat} (params : BlendParameters) (backdrop layer : PixelRegion n)
    (mask : Option MaskRegion) (p : Pos) : Pixel n :=
  let b := fetch backdrop p
  let l := fetch layer p
  let r := combine params.blend_mode b.color b.alpha l.color l.alpha
    (clamp01 params.opacity) (fetch_mask params.mask_applies mask p)
  { color := r.1, alpha := r.2 }

/-- Modelled from the spec: the output region being filled; `none` is a
position nothing was written to. -/
abbrev Output (n : Nat) := Pos → Option (Pixel n)

/-- Modelled from the spec: the output region before any tile is processed. -/
def Output.empty (n : Nat) : Output n := fun _ => none

/-- Modelled from the spec: writing one result into the output region. -/
def Output.write {n : Nat} (out : Output n) (p : Pos) (v : Pixel n) : Output n :=
  fun q => if q = p then some v else out q

/-- Modelled from the spec: the Tile Processor of section 4.4 on one tile; it
visits the positions of the tile in order and writes each result; the
processor is missing. -/
def process_tile {n : Nat} (params : BlendParameters) (backdrop layer : PixelRegion n)
    (mask : Option MaskRegion) (tile : Rect) (out : Output n) : Output n :=
  tile.positions.foldl
    (fun acc p => acc.write p (composite_pixel params backdrop layer mask p)) out

/-- Modelled from the spec: compositing a region as one tile. -/
def composite_whole {n : Nat} (params : BlendParameters) (backdrop layer : PixelRegion n)
    (mask : Option MaskRegion) (region : Rect) : Output n :=
  process_tile params backdrop layer mask region (Output.empty n)

/-- Modelled from the spec: compositing a region tile by tile, each tile
processed independently of the others, into one output region. -/
def composite_tiled {n : Nat} (params : BlendParameters) (backdrop layer : PixelRegion n)
    (mask : Option MaskRegion) (tiles : List Rect) : Output n :=
  tiles.foldl (fun acc tile => process_tile params backdrop layer mask tile acc)
    (Output.empty n)

/-- Modelled from the spec: the tiles are a partition of the region into
disjoint sub-tiles: every position of the region lies in some tile, every
tile lies in the region, and no position lies in two tiles. -/
def IsTiling (region : Rect) (tiles : List Rect) : Prop :=
  (∀ p : Pos, region.contains p ↔ ∃ t ∈ tiles, t.contains p) ∧
  tiles.Pairwise (fun s t => ∀ p : Pos, ¬ (s.contains p ∧ t.contains p))

/-- A value in the range [0,1]. -/
def in_unit (x : ℚ) : Prop := 0 ≤ x ∧ x ≤ 1

/-! ## Theorems about `text-tool-commands.c` -/

theorem g_object_get_set_some (object : GimpTextTool) (key : String) (w : GtkWidget) :
    g_object_get_data (g_object_set_data object key (some w)) key = some w := by
  simp [g_object_get_data, g_object_set_data]

theorem g_object_get_set_none (object : GimpTextTool) (key : String) :
    g_object_get_data (g_object_set_data object key none) key = none := by
  simp [g_object_get_data, g_object_set_data]

theorem load_cmd_existing (new_dialog : GtkWidget) (action : GtkAction) (tool : GimpTextTool)
    (d : GtkWidget) (h : g_object_get_data tool file_dialog_key = some d) :
    text_tool_load_cmd_callback new_dialog action tool =
      { tool := tool
        calls := [Call.g_object_get_data file_dialog_key, Call.gtk_window_present d] } := by
  simp [text_tool_load_cmd_callback, h]

theorem load_cmd_fresh (new_dialog : GtkWidget) (action : GtkAction) (tool : GimpTextTool)
    (h : g_object_get_data tool file_dialog_key = none) :
    (text_tool_load_cmd_callback new_dialog action tool).tool =
        g_object_set_data tool file_dialog_key (some new_dialog) ∧
      created_dialogs (text_tool_load_cmd_callback new_dialog action tool).calls =
        [new_dialog] := by
  simp [text_tool_load_cmd_callback, h, created_dialogs]

/-- In every reachable state the existing load dialogs are exactly the datum
of the tool, when it has one. -/
theorem reachable_dialogs_eq (s : LoadState) (hs : s.Reachable) :
    s.dialogs = (g_object_get_data s.tool file_dialog_key).toList := by
  induction hs with
  | init tool h => simp [h]
  | load s new_dialog action _ _ ih =>
    cases hget : g_object_get_data s.tool file_dialog_key with
    | some d =>
      have hc := load_cmd_existing new_dialog action s.tool d hget
      simp [LoadState.load, hc, created_dialogs, hget, ih]
    | none =>
      obtain ⟨h1, h2⟩ := load_cmd_fresh new_dialog action s.tool hget
      simp [LoadState.load, h1, h2, g_object_get_set_some, ih, hget]
  | destroy s dialog _ hd ih =>
    rw [ih] at hd
    cases hget : g_object_get_data s.tool file_dialog_key with
    | none => simp [hget] at hd
    | some d =>
      simp [hget] at hd
      subst hd
      simp [LoadState.destroy, text_tool_load_dialog_destroyed, g_object_get_set_none, ih,
        hget]

/-- C5: each of the cut, copy, paste, text-to-path and text-along-path
callbacks makes exactly one call, to `gimp_text_tool_clipboard_cut`,
`gimp_text_tool_clipboard_copy` with `TRUE`, `gimp_text_tool_clipboard_paste`
with `TRUE`, `gimp_text_tool_create_vectors` and
`gimp_text_tool_create_vectors_warped` respectively, on the tool given by
`data`; the tool afterwards is whatever that one call leaves, and nothing
depends on the `action` argument. -/
theorem text_tool_callbacks_dispatch (env : Env) (action : GtkAction) (data : GimpTextTool) :
    text_tool_cut_cmd_callback env action data =
        { tool := env.gimp_text_tool_clipboard_cut data
          calls := [Call.gimp_text_tool_clipboard_cut data] } ∧
      text_tool_copy_cmd_callback env action data =
        { tool := env.gimp_text_tool_clipboard_copy data true
          calls := [Call.gimp_text_tool_clipboard_copy data true] } ∧
      text_tool_paste_cmd_callback env action data =
        { tool := env.gimp_text_tool_clipboard_paste data true
          calls := [Call.gimp_text_tool_clipboard_paste data true] } ∧
      text_tool_text_to_path_cmd_callback env action data =
        { tool := env.gimp_text_tool_create_vectors data
          calls := [Call.gimp_text_tool_create_vectors data] } ∧
      text_tool_text_along_path_cmd_callback env action data =
        { tool := env.gimp_text_tool_create_vectors_warped data
          calls := [Call.gimp_text_tool_create_vectors_warped data] } ∧
      ∀ other : GtkAction,
        text_tool_cut_cmd_callback env other data =
            text_tool_cut_cmd_callback env action data ∧
          text_tool_copy_cmd_callback env other data =
            text_tool_copy_cmd_callback env action data ∧
          text_tool_paste_cmd_callback env other data =
            text_tool_paste_cmd_callback env action data ∧
          text_tool_text_to_path_cmd_callback env other data =
            text_tool_text_to_path_cmd_callback env action data ∧
          text_tool_text_along_path_cmd_callback env other data =
            text_tool_text_along_path_cmd_callback env action data :=
  ⟨rfl, rfl, rfl, rfl, rfl, fun _ => ⟨rfl, rfl, rfl, rfl, rfl⟩⟩

/-- C6: in `text_tool_load_dialog_response`, `gimp_text_buffer_load` is called
exactly when the response is `GTK_RESPONSE_OK` (and then once, on the buffer
of the tool with the chosen file name); `gimp_message` and `g_clear_error`
are called exactly when the response is OK and the load fails; and the dialog
is hidden exactly when it is not the case that the response is OK and the
load fails. -/
theorem load_dialog_response_cases (env : Env) (dialog : GtkWidget) (response_id : Int)
    (tool : GimpTextTool) :
    ((text_tool_load_dialog_response env dialog response_id tool).calls.any is_buffer_load
          = true ↔ response_id = GTK_RESPONSE_OK) ∧
      (Call.gimp_text_buffer_load tool.text_buffer (env.gtk_file_chooser_get_filename dialog)
          ∈ (text_tool_load_dialog_response env dialog response_id tool).calls ↔
        response_id = GTK_RESPONSE_OK) ∧
      ((text_tool_load_dialog_response env dialog response_id tool).calls.countP
          is_buffer_load ≤ 1) ∧
      ((text_tool_load_dialog_response env dialog response_id tool).calls.any is_message
          = true ↔
        (response_id = GTK_RESPONSE_OK ∧
          (env.gimp_text_buffer_load tool.text_buffer
            (env.gtk_file_chooser_get_filename dialog)).2.isSome = true)) ∧
      (Call.g_clear_error ∈ (text_tool_load_dialog_response env dialog response_id tool).calls
          ↔
        (response_id = GTK_RESPONSE_OK ∧
          (env.gimp_text_buffer_load tool.text_buffer
            (env.gtk_file_chooser_get_filename dialog)).2.isSome = true)) ∧
      (Call.gtk_widget_hide dialog ∈
          (text_tool_load_dialog_response env dialog response_id tool).calls ↔
        ¬ (response_id = GTK_RESPONSE_OK ∧
          (env.gimp_text_buffer_load tool.text_buffer
            (env.gtk_file_chooser_get_filename dialog)).2.isSome = true)) := by
  unfold text_tool_load_dialog_response
  by_cases hr : response_id = GTK_RESPONSE_OK
  · cases hl : (env.gimp_text_buffer_load tool.text_buffer
        (env.gtk_file_chooser_get_filename dialog)).2 <;>
      simp [hr, hl, is_buffer_load, is_message]
  · simp [hr, is_buffer_load, is_message]

/-- C7: in every state reachable by the load command and the destruction of
load dialogs, at most one load dialog exists, the "gimp-text-file-dialog"
datum of the tool is that dialog when one exists and `NULL` when none does,
and the load command invoked while the datum is non-`NULL` only reads the
datum and presents the existing dialog: it creates no dialog and leaves the
tool, its datum included, and the set of dialogs unchanged. -/
theorem load_dialog_unique (s : LoadState) (hs : s.Reachable) :
    s.dialogs.length ≤ 1 ∧
      (∀ d : GtkWidget, g_object_get_data s.tool file_dialog_key = some d ↔ d ∈ s.dialogs) ∧
      (g_object_get_data s.tool file_dialog_key = none ↔ s.dialogs = []) ∧
      ∀ (new_dialog : GtkWidget) (action : GtkAction) (d : GtkWidget),
        g_object_get_data s.tool file_dialog_key = some d →
          (text_tool_load_cmd_callback new_dialog action s.tool).calls =
              [Call.g_object_get_data file_dialog_key, Call.gtk_window_present d] ∧
            created_dialogs (text_tool_load_cmd_callback new_dialog action s.tool).calls = [] ∧
            (text_tool_load_cmd_callback new_dialog action s.tool).tool = s.tool ∧
            s.load new_dialog action = s := by
  have hinv := reachable_dialogs_eq s hs
  refine ⟨?_, ?_, ?_, ?_⟩
  · rw [hinv]
    cases g_object_get_data s.tool file_dialog_key <;> simp
  · intro d
    rw [hinv]
    cases g_object_get_data s.tool file_dialog_key <;> simp [eq_comm]
  · rw [hinv]
    cases g_object_get_data s.tool file_dialog_key <;> simp
  · intro new_dialog action d hd
    have hc := load_cmd_existing new_dialog action s.tool d hd
    simp [LoadState.load, hc, created_dialogs]

/-- C7, on a concrete run: after the load command on a tool without dialog
created dialog 7, one dialog exists, and the load command again only reads
the datum and presents dialog 7. -/
theorem load_dialog_unique_witness :
    (LoadState.load { tool := ⟨none, ⟨[], 0, 0⟩, []⟩, dialogs := [] } 7 ⟨"load"⟩).dialogs.length
        ≤ 1 ∧
      (text_tool_load_cmd_callback 8 ⟨"load"⟩
          (LoadState.load { tool := ⟨none, ⟨[], 0, 0⟩, []⟩, dialogs := [] } 7
            ⟨"load"⟩).tool).calls =
        [Call.g_object_get_data file_dialog_key, Call.gtk_window_present 7] :=
  have h := load_dialog_unique _
    (LoadState.Reachable.load _ 7 ⟨"load"⟩
      (LoadState.Reachable.init ⟨none, ⟨[], 0, 0⟩, []⟩ rfl) (by simp))
  ⟨h.1, (h.2.2.2 8 ⟨"load"⟩ 7 (by
    simp [LoadState.load, text_tool_load_cmd_callback, g_object_get_data,
      g_object_set_data])).1⟩

/-- C8: `text_tool_delete_cmd_callback` calls `gimp_text_tool_delete_text`
exactly when the buffer of the tool has a selection, and then once; without a
selection it calls nothing but the selection test and leaves the tool, its
buffer included, unchanged.  `text_tool_clear_cmd_callback` always selects
the range from the start to the end of the buffer and then calls
`gimp_text_tool_delete_text` exactly once, on the tool with that selection. -/
theorem delete_and_clear_calls (env : Env) (action : GtkAction) (data : GimpTextTool) :
    ((text_tool_delete_cmd_callback env action data).calls.any is_delete_text = true ↔
        gtk_text_buffer_get_has_selection data.text_buffer = true) ∧
      (text_tool_delete_cmd_callback env action data).calls.countP is_delete_text =
        (if gtk_text_buffer_get_has_selection data.text_buffer then 1 else 0) ∧
      (gtk_text_buffer_get_has_selection data.text_buffer = true →
        (text_tool_delete_cmd_callback env action data).tool =
          env.gimp_text_tool_delete_text data true) ∧
      (gtk_text_buffer_get_has_selection data.text_buffer = false →
        (text_tool_delete_cmd_callback env action data).tool = data ∧
          (text_tool_delete_cmd_callback env action data).calls =
            [Call.gtk_text_buffer_get_has_selection data.text_buffer]) ∧
      (text_tool_clear_cmd_callback env action data).calls =
        [Call.gtk_text_buffer_get_bounds data.text_buffer,
         Call.gtk_text_buffer_select_range data.text_buffer ⟨0⟩ ⟨data.text_buffer.text.length⟩,
         Call.gimp_text_tool_delete_text
           { data with
             text_buffer :=
               { data.text_buffer with
                 insert := 0, selection_bound := data.text_buffer.text.length } }
           true] ∧
      (text_tool_clear_cmd_callback env action data).calls.countP is_delete_text = 1 ∧
      (text_tool_clear_cmd_callback env action data).tool =
        env.gimp_text_tool_delete_text
          { data with
            text_buffer :=
              { data.text_buffer with
                insert := 0, selection_bound := data.text_buffer.text.length } }
          true := by
  unfold text_tool_delete_cmd_callback text_tool_clear_cmd_callback
  cases hsel : gtk_text_buffer_get_has_selection data.text_buffer <;>
    simp [hsel, is_delete_text, gtk_text_buffer_get_bounds, gtk_text_buffer_select_range]

/-! ## Theorems about `gimpoperationreplacemode.h` -/

/-- C9: the Replace-mode instance structure consists of exactly the parent
instance and the Replace-mode class structure of exactly the parent class:
taking the parent part is a bijection, so a Replace-mode operation is
determined by its base part and holds no data beyond it. -/
theorem replace_mode_adds_no_state (GimpOperationPointLayerMode : Type)
    (GimpOperationPointLayerModeClass : Type) :
    Function.Bijective
        (GimpOperationReplaceMode.parent_instance :
          GimpOperationReplaceMode GimpOperationPointLayerMode →
            GimpOperationPointLayerMode) ∧
      Function.Bijective
        (GimpOperationReplaceModeClass.parent_class :
          GimpOperationReplaceModeClass GimpOperationPointLayerModeClass →
            GimpOperationPointLayerModeClass) := by
  refine ⟨⟨?_, fun p => ⟨⟨p⟩, rfl⟩⟩, ⟨?_, fun p => ⟨⟨p⟩, rfl⟩⟩⟩
  · rintro ⟨a⟩ ⟨b⟩ h
    exact congrArg _ h
  · rintro ⟨a⟩ ⟨b⟩ h
    exact congrArg _ h

/-! ## Theorems about the compositing contract -/

theorem clamp01_of_in_unit (x : ℚ) (h : in_unit x) : clamp01 x = x := by
  obtain ⟨h0, h1⟩ := h
  simp [clamp01, min_eq_right h1, max_eq_right h0]

theorem presence_in_unit (layer_alpha : ℚ) : in_unit (presence layer_alpha) := by
  unfold presence in_unit
  split <;> norm_num

theorem replace_coverage_in_unit (layer_alpha opacity mask_value : ℚ)
    (ho : in_unit opacity) (hm : in_unit mask_value) :
    in_unit (replace_coverage layer_alpha opacity mask_value) := by
  obtain ⟨hp0, hp1⟩ := presence_in_unit layer_alpha
  obtain ⟨ho0, ho1⟩ := ho
  obtain ⟨hm0, hm1⟩ := hm
  unfold replace_coverage
  constructor
  · exact mul_nonneg (mul_nonneg ho0 hm0) hp0
  · have h1 : opacity * mask_value ≤ 1 := by
      calc opacity * mask_value ≤ 1 * 1 := mul_le_mul ho1 hm1 hm0 (by norm_num)
        _ = 1 := by norm_num
    calc opacity * mask_value * presence layer_alpha ≤ 1 * 1 :=
          mul_le_mul h1 hp1 hp0 (by norm_num)
      _ = 1 := by norm_num

theorem mix_in_unit (a b t : ℚ) (ha : in_unit a) (hb : in_unit b) (ht : in_unit t) :
    in_unit (mix a b t) := by
  obtain ⟨ha0, ha1⟩ := ha
  obtain ⟨hb0, hb1⟩ := hb
  obtain ⟨ht0, ht1⟩ := ht
  have hs : 0 ≤ 1 - t := by linarith
  unfold mix
  constructor
  · exact add_nonneg (mul_nonneg ha0 hs) (mul_nonneg hb0 ht0)
  · have h1 : a * (1 - t) ≤ 1 * (1 - t) := mul_le_mul_of_nonneg_right ha1 hs
    have h2 : b * t ≤ 1 * t := mul_le_mul_of_nonneg_right hb1 ht0
    linarith

theorem combine_layer_alpha_zero {n : Nat} (mode : BlendMode) (backdrop_color : Color n)
    (backdrop_alpha : ℚ) (layer_color : Color n) (opacity mask_value : ℚ) :
    combine mode backdrop_color backdrop_alpha layer_color 0 opacity mask_value =
      (backdrop_color, backdrop_alpha) := by
  unfold combine
  rw [if_pos rfl]

theorem combine_replace {n : Nat} (backdrop_color : Color n) (backdrop_alpha : ℚ)
    (layer_color : Color n) (layer_alpha opacity mask_value : ℚ) (hla : layer_alpha ≠ 0) :
    combine BlendMode.Replace backdrop_color backdrop_alpha layer_color layer_alpha opacity
        mask_value =
      (fun i => clamp01 (mix (backdrop_color i) (layer_color i)
          (replace_coverage layer_alpha opacity mask_value)),
        clamp01 (mix backdrop_alpha layer_alpha
          (replace_coverage layer_alpha opacity mask_value))) := by
  unfold combine
  rw [if_neg hla]

theorem combine_over {n : Nat} (mode : BlendMode) (hmode : mode ≠ BlendMode.Replace)
    (backdrop_color : Color n) (backdrop_alpha : ℚ)
    (layer_color : Color n) (layer_alpha opacity mask_value : ℚ) (hla : layer_alpha ≠ 0) :
    combine mode backdrop_color backdrop_alpha layer_color layer_alpha opacity mask_value =
      (fun i => clamp01 (over_color (backdrop_color i) backdrop_alpha
          (blended_color mode (backdrop_color i) (layer_color i))
          (layer_alpha * opacity * mask_value)),
        clamp01 (over_alpha backdrop_alpha (layer_alpha * opacity * mask_value))) := by
  unfold combine
  rw [if_neg hla]
  cases mode
  case Replace => exact absurd rfl hmode
  all_goals rfl

/-- C1: for backdrop and layer colour and alpha, opacity and mask value in
[0,1], `combine` under Replace returns as colour the linear interpolation of
backdrop and layer colour, and as alpha the linear interpolation of backdrop
and layer alpha, at coverage = opacity * mask_value * presence indicator of
the layer alpha; and this is not the alpha-over law: on an opaque backdrop
and a layer of alpha 3/10 the result alpha differs from `over_alpha`. -/
theorem replace_combine_is_mix :
    (∀ (n : Nat) (backdrop_color layer_color : Color n)
        (backdrop_alpha layer_alpha opacity mask_value : ℚ),
        (∀ i, in_unit (backdrop_color i)) → (∀ i, in_unit (layer_color i)) →
        in_unit backdrop_alpha → in_unit layer_alpha → in_unit opacity →
        in_unit mask_value →
        combine BlendMode.Replace backdrop_color backdrop_alpha layer_color layer_alpha
            opacity mask_value =
          (fun i => mix (backdrop_color i) (layer_color i)
              (opacity * mask_value * presence layer_alpha),
            mix backdrop_alpha layer_alpha (opacity * mask_value * presence layer_alpha))) ∧
      (combine BlendMode.Replace (fun _ : Fin 1 => 0) 1 (fun _ => 0) (3 / 10) 1 1).2 ≠
        over_alpha 1 (3 / 10 * 1 * 1) := by
  constructor
  · intro n bc lc ba la op mv hbc hlc hba hla hop hmv
    have hcov := replace_coverage_in_unit la op mv hop hmv
    have hc : ∀ i, clamp01 (mix (bc i) (lc i) (replace_coverage la op mv)) =
        mix (bc i) (lc i) (replace_coverage la op mv) :=
      fun i => clamp01_of_in_unit _ (mix_in_unit _ _ _ (hbc i) (hlc i) hcov)
    have ha : clamp01 (mix ba la (replace_coverage la op mv)) =
        mix ba la (replace_coverage la op mv) :=
      clamp01_of_in_unit _ (mix_in_unit _ _ _ hba hla hcov)
    by_cases hla0 : la = 0
    · subst hla0
      rw [combine_layer_alpha_zero]
      simp [mix, presence]
    · rw [combine_replace _ _ _ _ _ _ hla0, ha]
      simp only [hc]
      rfl
  · rw [combine_replace _ _ _ _ _ _ (by norm_num)]
    norm_num [replace_coverage, presence, mix, clamp01, over_alpha]

/-- C1, on concrete values: backdrop colour 1/2 and alpha 1, layer colour 1/4
and alpha 3/10, opacity 1/2, no mask. -/
theorem replace_combine_is_mix_witness :
    combine BlendMode.Replace (fun _ : Fin 1 => 1 / 2) 1 (fun _ => 1 / 4) (3 / 10) (1 / 2) 1 =
      (fun _ => mix (1 / 2) (1 / 4) (1 / 2 * 1 * presence (3 / 10)),
        mix 1 (3 / 10) (1 / 2 * 1 * presence (3 / 10))) :=
  replace_combine_is_mix.1 1 (fun _ => 1 / 2) (fun _ => 1 / 4) 1 (3 / 10) (1 / 2) 1
    (fun _ => by norm_num [in_unit]) (fun _ => by norm_num [in_unit])
    (by norm_num [in_unit]) (by norm_num [in_unit]) (by norm_num [in_unit])
    (by norm_num [in_unit])

/-- C2: with backdrop alpha 1, layer alpha 0.3, opacity 1 and mask value 1,
for all colours, Replace yields result alpha 0.3, Normal yields result alpha
1, and the two results differ. -/
theorem replace_normal_diverge (n : Nat) (backdrop_color layer_color : Color n) :
    (combine BlendMode.Replace backdrop_color 1 layer_color (3 / 10) 1 1).2 = 3 / 10 ∧
      (combine BlendMode.Normal backdrop_color 1 layer_color (3 / 10) 1 1).2 = 1 ∧
      combine BlendMode.Replace backdrop_color 1 layer_color (3 / 10) 1 1 ≠
        combine BlendMode.Normal backdrop_color 1 layer_color (3 / 10) 1 1 := by
  have h1 : (combine BlendMode.Replace backdrop_color 1 layer_color (3 / 10) 1 1).2 = 3 / 10 := by
    rw [combine_replace _ _ _ _ _ _ (by norm_num)]
    norm_num [replace_coverage, presence, mix, clamp01]
  have h2 : (combine BlendMode.Normal backdrop_color 1 layer_color (3 / 10) 1 1).2 = 1 := by
    rw [combine_over BlendMode.Normal (by decide) _ _ _ _ _ _ (by norm_num)]
    norm_num [over_alpha, clamp01]
  refine ⟨h1, h2, fun h => ?_⟩
  rw [h, h2] at h1
  norm_num at h1

/-- C3: for every blend mode, Replace included, every backdrop colour and
alpha, every opacity and mask value (in [0,1] in particular) and every layer
colour, `combine` with layer alpha 0 returns exactly the backdrop colour and
the backdrop alpha. -/
theorem transparent_layer_returns_backdrop (n : Nat) (mode : BlendMode)
    (backdrop_color layer_color : Color n) (backdrop_alpha opacity mask_value : ℚ) :
    combine mode backdrop_color backdrop_alpha layer_color 0 opacity mask_value =
      (backdrop_color, backdrop_alpha) := by
  cases mode <;> exact combine_layer_alpha_zero _ _ _ _ _ _

theorem mem_positions (r : Rect) (p : Pos) : p ∈ r.positions ↔ r.contains p := by
  obtain ⟨a, b⟩ := p
  unfold Rect.positions Rect.contains
  constructor
  · intro h
    obtain ⟨j, hj, hm⟩ := List.mem_flatMap.mp h
    obtain ⟨i, hi, he⟩ := List.mem_map.mp hm
    rw [List.mem_range] at hj hi
    rw [Prod.mk.injEq] at he
    obtain ⟨h1, h2⟩ := he
    refine ⟨?_, ?_, ?_, ?_⟩ <;> simp only <;> omega
  · rintro ⟨h1, h2, h3, h4⟩
    simp only at h1 h2 h3 h4
    refine List.mem_flatMap.mpr ⟨(b - r.y).toNat, List.mem_range.mpr (by omega), ?_⟩
    refine List.mem_map.mpr ⟨(a - r.x).toNat, List.mem_range.mpr (by omega), ?_⟩
    rw [Prod.mk.injEq]
    constructor <;> omega

theorem foldl_write_apply {n : Nat} (f : Pos → Pixel n) (ps : List Pos) (out : Output n)
    (q : Pos) :
    (ps.foldl (fun acc p => acc.write p (f p)) out) q =
      if q ∈ ps then some (f q) else out q := by
  induction ps generalizing out with
  | nil => simp
  | cons p ps ih =>
    rw [List.foldl_cons, ih]
    by_cases hq : q ∈ ps
    · simp [hq]
    · by_cases hp : q = p
      · simp [hq, hp, Output.write]
      · simp [hq, hp, Output.write]

theorem process_tile_apply {n : Nat} (params : BlendParameters)
    (backdrop layer : PixelRegion n) (mask : Option MaskRegion) (tile : Rect)
    (out : Output n) (q : Pos) :
    process_tile params backdrop layer mask tile out q =
      if tile.contains q then some (composite_pixel params backdrop layer mask q)
      else out q := by
  unfold process_tile
  rw [foldl_write_apply]
  by_cases h : tile.contains q
  · simp [h, (mem_positions tile q).mpr h]
  · have h2 : q ∉ tile.positions := fun hm => h ((mem_positions tile q).mp hm)
    simp [h, h2]

theorem tiles_foldl_covered {n : Nat} (params : BlendParameters)
    (backdrop layer : PixelRegion n) (mask : Option MaskRegion) (tiles : List Rect)
    (out : Output n) (q : Pos) (h : ∃ t ∈ tiles, t.contains q) :
    (tiles.foldl (fun acc tile => process_tile params backdrop layer mask tile acc) out) q =
      some (composite_pixel params backdrop layer mask q) := by
  induction tiles using List.reverseRecOn with
  | nil => simp at h
  | append_singleton ts t ih =>
    rw [List.foldl_append, List.foldl_cons, List.foldl_nil, process_tile_apply]
    by_cases ht : t.contains q
    · simp [ht]
    · simp only [ht, if_false]
      apply ih
      obtain ⟨u, hu, hq⟩ := h
      rcases List.mem_append.mp hu with hu | hu
      · exact ⟨u, hu, hq⟩
      · rw [List.mem_singleton] at hu
        subst hu
        exact absurd hq ht

theorem tiles_foldl_uncovered {n : Nat} (params : BlendParameters)
    (backdrop layer : PixelRegion n) (mask : Option MaskRegion) (tiles : List Rect)
    (out : Output n) (q : Pos) (h : ¬ ∃ t ∈ tiles, t.contains q) :
    (tiles.foldl (fun acc tile => process_tile params backdrop layer mask tile acc) out) q =
      out q := by
  induction tiles generalizing out with
  | nil => simp
  | cons t ts ih =>
    rw [List.foldl_cons, ih]
    · rw [process_tile_apply]
      have ht : ¬ t.contains q := fun hc => h ⟨t, List.mem_cons_self _ _, hc⟩
      simp [ht]
    · rintro ⟨u, hu, hq⟩
      exact h ⟨u, List.mem_cons_of_mem _ hu, hq⟩

/-- C4: for every mode and all blend parameters, inputs and regions,
compositing the region as one tile and compositing it tile by tile over any
partition of the region into disjoint sub-tiles give the same output at
every position: the same pixel inside the region, nothing outside. -/
theorem tiling_invariance {n : Nat} (params : BlendParameters)
    (backdrop layer : PixelRegion n) (mask : Option MaskRegion) (region : Rect)
    (tiles : List Rect) (h : IsTiling region tiles) (p : Pos) :
    composite_tiled params backdrop layer mask tiles p =
      composite_whole params backdrop layer mask region p := by
  unfold composite_tiled composite_whole
  rw [process_tile_apply]
  by_cases hp : region.contains p
  · rw [tiles_foldl_covered params backdrop layer mask tiles _ p ((h.1 p).mp hp)]
    simp [hp]
  · rw [tiles_foldl_uncovered params backdrop layer mask tiles _ p
      (fun hc => hp ((h.1 p).mpr hc))]
    simp [hp]

/-- C4, on a concrete partition: a 2x2 region split into its two rows, under
Replace mode with a constant backdrop and layer, at position (1, 1). -/
theorem tiling_invariance_witness :
    composite_tiled (n := 1) ⟨1, BlendMode.Replace, false⟩
        ⟨⟨0, 0, 2, 2⟩, fun _ => ⟨fun _ => 1 / 2, 1⟩⟩
        ⟨⟨0, 0, 2, 2⟩, fun _ => ⟨fun _ => 1 / 4, 3 / 10⟩⟩ none
        [⟨0, 0, 2, 1⟩, ⟨0, 1, 2, 1⟩] (1, 1) =
      composite_whole ⟨1, BlendMode.Replace, false⟩
        ⟨⟨0, 0, 2, 2⟩, fun _ => ⟨fun _ => 1 / 2, 1⟩⟩
        ⟨⟨0, 0, 2, 2⟩, fun _ => ⟨fun _ => 1 / 4, 3 / 10⟩⟩ none
        ⟨0, 0, 2, 2⟩ (1, 1) :=
  tiling_invariance _ _ _ _ ⟨0, 0, 2, 2⟩ [⟨0, 0, 2, 1⟩, ⟨0, 1, 2, 1⟩]
    (by
      constructor
      · rintro ⟨a, b⟩
        simp only [Rect.contains, List.mem_cons, List.mem_singleton, exists_eq_or_imp,
          exists_eq_left, List.not_mem_nil, false_and, exists_false, or_false]
        omega
      · simp only [List.pairwise_cons, List.mem_singleton, forall_eq, List.not_mem_nil,
          false_implies, implies_true, List.Pairwise.nil, and_true, Rect.contains]
        rintro ⟨a, b⟩
        omega)
    (1, 1)

end Gimp
